import Mathlib

/-!
Verification development for the stellarAnchorDemo repository: a SEP-10
three-party challenge–response authentication backend (Express handlers in
the two server variants, which agree on all modelled logic) together with
the SEP-24 interactive-transfer endpoints and the frontend status-polling
transition (`checkTransactionStatus` in App.jsx).

The JavaScript handlers are shallowly embedded as pure Lean functions.
Effects are made explicit: every outbound HTTP call is recorded in a trace
(`List RemoteCall`), and the remote world (axios responses) is an `Env` of
response oracles.  JavaScript string truthiness (`undefined`/`""` falsy) is
modelled by `truthy` on `Option String`; `error.response?.data ||
error.message` is modelled by `HttpOutcome.details`.
-/

namespace StellarAnchorDemo

/-! ## JavaScript string primitives (modelled from JS semantics) -/

/-- `pat` occurs as a contiguous sub-list of the second argument
(JS `String.prototype.includes`, lifted to character lists). -/
def hasSubList (pat : List Char) : List Char → Bool
  | [] => pat.isEmpty
  | c :: rest => pat.isPrefixOf (c :: rest) || hasSubList pat rest

/-- JS `s.includes(pat)`. -/
def strIncludes (s pat : String) : Bool :=
  hasSubList pat.data s.data

/-- JS `s.startsWith(pre)`. -/
def strStartsWith (s pre : String) : Bool :=
  pre.data.isPrefixOf s.data

/-- JS `s.substring(n)`: drop the first `n` characters. -/
def strDrop (s : String) (n : Nat) : String :=
  ⟨s.data.drop n⟩

/-- JS truthiness of a string-valued field of a JSON body:
`undefined` (here `none`) and the empty string are falsy. -/
def truthy : Option String → Bool
  | none => false
  | some s => !(s == "")

/-! ## Data model: envelopes and signatures

`new StellarSdk.Transaction(xdr, network)` parses an XDR envelope; the
structural view the claims need is the time bounds and the ordered
signature list.  `txn.sign(keypair)` appends one signature made by the
keypair over the transaction hash for the stored network; the SDK performs
no duplicate-signature check and no time-bounds check.  `Keypair.fromSecret`
is modelled as a deterministic derivation `pubOf` of the public key from
the secret seed (configured keys are assumed well-formed). -/

/-- One entry of the envelope's ordered signature list: which key produced
it and which network passphrase the signature is bound to. -/
structure Signature where
  signer : String
  network : String
deriving DecidableEq, Repr

/-- Structural view of a signed-transaction envelope. -/
structure Envelope where
  sourceAccount : String
  timeBounds : Option (Nat × Nat)
  signatures : List Signature
deriving DecidableEq, Repr

/-- The wire form of an envelope: the empty string, an undecodable string
(carrying the message of the exception the SDK parser would throw), or a
well-formed envelope. -/
inductive Xdr where
  | empty
  | malformed (msg : String)
  | wellFormed (e : Envelope)
deriving DecidableEq, Repr

/-- JS truthiness of the `signedTransaction` body field. -/
def xdrTruthy : Option Xdr → Bool
  | some Xdr.empty => false
  | some _ => true
  | none => false

/-- Deterministic public-key derivation standing in for
`StellarSdk.Keypair.fromSecret(secret).publicKey()`. -/
def pubOf (secret : String) : String :=
  "G" ++ secret

/-- `txn.sign(keypair)` followed by `txn.toEnvelope()`: append one
signature by the keypair, bound to the network the transaction was parsed
with.  No other field changes; existing signatures are preserved in
order. -/
def signEnvelope (e : Envelope) (network : String) (secret : String) : Envelope :=
  { e with signatures := e.signatures ++ [⟨pubOf secret, network⟩] }

/-! ## Networks (stellar-sdk constants) -/

def TESTNET_PASSPHRASE : String := "Test SDF Network ; September 2015"

def PUBLIC_PASSPHRASE : String := "Public Global Stellar Network ; September 2015"

/-- The network-determination block shared by both server variants
(part_000 lines 113–121, part_001 lines 110–118) and the frontends:
`if (networkPassphrase.includes('Test')) network = Networks.TESTNET;
else if (networkPassphrase.includes('Public')) network = Networks.PUBLIC;
else network = networkPassphrase;` -/
def determineNetwork (networkPassphrase : String) : String :=
  if strIncludes networkPassphrase "Test" then TESTNET_PASSPHRASE
  else if strIncludes networkPassphrase "Public" then PUBLIC_PASSPHRASE
  else networkPassphrase

/-! ## The remote world -/

/-- The stellar.toml directory document, abstracted to the results of the
two regex extractions the servers perform:
`WEB_AUTH_ENDPOINT\s*=\s*"([^"]+)"` and
`TRANSFER_SERVER_SEP0024\s*=\s*"([^"]+)"`.  `none` means the key is absent
(no regex match); `some url` is the captured group. -/
structure TomlDoc where
  webAuthEndpoint : Option String
  transferServer : Option String
deriving DecidableEq, Repr

/-- `challengeResponse.data` of the anchor's challenge endpoint. -/
structure ChallengeData where
  transaction : String
  network_passphrase : String
deriving DecidableEq, Repr

/-- JSON body POSTed to `{transferServer}/transactions/…/interactive`:
`{asset_code, account, amount?}` where `amount` is included only when
truthy. -/
structure InteractiveBody where
  asset_code : String
  account : String
  amount : Option String
deriving DecidableEq, Repr

/-- `response.data` of the interactive initiation call (`ty` models the
JSON field named `type`). -/
structure InteractiveData where
  id : String
  url : String
  ty : String
deriving DecidableEq, Repr

/-- `response.data.transaction` of the transfer-status query. -/
structure TxRecord where
  id : String
  status : String
  message : Option String
deriving DecidableEq, Repr

/-- Outcome of one axios call: success carrying the parsed response data, a
non-2xx rejection carrying `error.response.data` (the raw payload, possibly
the empty string) and `error.message`, or a network failure carrying only
`error.message` (no response object). -/
inductive HttpOutcome (α : Type) where
  | ok (v : α)
  | rejected (payload : String) (msg : String)
  | netError (msg : String)

/-- The `catch` block's `error.response?.data || error.message`: the raw
rejection payload when truthy, otherwise the transport message. -/
def HttpOutcome.details {α : Type} : HttpOutcome α → String
  | .ok _ => ""
  | .rejected payload msg => if payload == "" then msg else payload
  | .netError msg => msg

/-- One outbound HTTP request made by a handler, identified by its
components (endpoint, query parameters, JSON body, bearer token). -/
inductive RemoteCall where
  | fetchToml
  | getChallenge (endpoint account clientDomain : String)
  | postSubmit (endpoint : String) (transaction : Xdr)
  | getInfo (transferServer : String)
  | postInteractive (url : String) (body : InteractiveBody) (bearer : String)
  | getTransaction (transferServer : String) (id : String) (bearer : String)
deriving DecidableEq, Repr

/-- Response oracles for every outbound call a handler can make. -/
structure Env where
  toml : HttpOutcome TomlDoc
  challenge : String → String → String → HttpOutcome ChallengeData
  submit : String → Xdr → HttpOutcome (Option String)
  info : String → HttpOutcome Unit
  interactive : String → InteractiveBody → String → HttpOutcome InteractiveData
  txStatus : String → String → String → HttpOutcome TxRecord

/-! ## Handler results

One result inductive per Express route, covering each `res.status(...)`
/`res.json(...)` exit of the handler (the catch-all 500 carries the
`details` string built by `HttpOutcome.details`). -/

/-- Results of `POST /api/sep10/get-challenge`. -/
inductive ChallengeResult where
  | missingAccount
  | tomlKeyMissing
  | failure (details : String)
  | success (transaction : String) (network_passphrase : String) (webAuthEndpoint : String)
deriving DecidableEq, Repr

/-- Results of `POST /api/sep10/submit`. -/
inductive SubmitResult where
  | missingFields
  | keyNotConfigured
  | tomlKeyMissing
  | failure (details : String)
  | success (token : Option String)
deriving DecidableEq, Repr

/-- Results of `POST /api/sep24/start`. -/
inductive StartResult where
  | authError
  | missingFields
  | tomlKeyMissing
  | failure (details : String)
  | success (id : String) (url : String) (ty : String)
deriving DecidableEq, Repr

/-- Results of `POST /api/sep24/transaction`. -/
inductive TxStatusResult where
  | authError
  | missingId
  | tomlKeyMissing
  | failure (details : String)
  | success (t : TxRecord)
deriving DecidableEq, Repr

/-! ## The Express handlers (part_001; part_000 is identical on the SEP-10
routes modulo whitespace and one extra log line) -/

/-- The `verifyToken` middleware (part_001 lines 182–192): reject with 401
unless the Authorization header is truthy and starts with `"Bearer "`,
otherwise extract `authHeader.substring(7)` as the token. -/
def verifyToken (authHeader : Option String) : Option String :=
  match authHeader with
  | none => none
  | some h => if strStartsWith h "Bearer " then some (strDrop h 7) else none

/-- Request body of `POST /api/sep10/submit`. -/
structure SubmitReq where
  signedTransaction : Option Xdr
  networkPassphrase : Option String

/-- Request body of `POST /api/sep24/start`. -/
structure StartReq where
  mode : Option String
  assetCode : Option String
  amount : Option String
  account : Option String

/-- `POST /api/sep10/get-challenge` (part_001 lines 30–85): validate
`account`, fetch the TOML, extract `WEB_AUTH_ENDPOINT`, GET the challenge
with `account` and `client_domain` query parameters, and relay
`{transaction, network_passphrase, webAuthEndpoint}`.  Any thrown error is
caught and returned as a 500 with `error.response?.data || error.message`
as `details`. -/
def getChallengeHandler (clientDomain : String) (account : Option String)
    (env : Env) : ChallengeResult × List RemoteCall :=
  if !(truthy account) then (.missingAccount, [])
  else
    let acc := account.getD ""
    match env.toml with
    | .ok doc =>
      match doc.webAuthEndpoint with
      | none => (.tomlKeyMissing, [.fetchToml])
      | some ep =>
        let calls := [RemoteCall.fetchToml, RemoteCall.getChallenge ep acc clientDomain]
        match env.challenge ep acc clientDomain with
        | .ok d => (.success d.transaction d.network_passphrase ep, calls)
        | out => (.failure out.details, calls)
    | out => (.failure out.details, [.fetchToml])

/-- `POST /api/sep10/submit` (part_001 lines 91–173): validate the two body
fields, require `CLIENT_SIGNING_KEY`, determine the network from the
passphrase, parse the subject-signed envelope, append the server's
client-domain signature, re-encode, fetch the TOML, extract
`WEB_AUTH_ENDPOINT`, POST `{transaction: fullySignedXdr}` and relay the
token.  Note the handler consults no clock: there is no time-bounds check
anywhere on this path.  Unreachable match arms (excluded by the truthiness
guard) return `(.missingFields, [])`. -/
def submitHandler (clientSigningKey : Option String) (req : SubmitReq)
    (env : Env) : SubmitResult × List RemoteCall :=
  if !(xdrTruthy req.signedTransaction && truthy req.networkPassphrase) then
    (.missingFields, [])
  else if !(truthy clientSigningKey) then
    (.keyNotConfigured, [])
  else
    let key := clientSigningKey.getD ""
    let network := determineNetwork ((req.networkPassphrase).getD "")
    match req.signedTransaction with
    | some (.malformed m) => (.failure m, [])
    | some (.wellFormed e) =>
      let fullySignedXdr := Xdr.wellFormed (signEnvelope e network key)
      match env.toml with
      | .ok doc =>
        match doc.webAuthEndpoint with
        | none => (.tomlKeyMissing, [.fetchToml])
        | some ep =>
          let calls := [RemoteCall.fetchToml, RemoteCall.postSubmit ep fullySignedXdr]
          match env.submit ep fullySignedXdr with
          | .ok tok => (.success tok, calls)
          | out => (.failure out.details, calls)
      | out => (.failure out.details, [.fetchToml])
    | _ => (.missingFields, [])

/-- `POST /api/sep24/start` (part_001 lines 195–272), with the
`verifyToken` middleware applied first as Express does: validate the three
required fields, fetch the TOML, extract `TRANSFER_SERVER_SEP0024`, GET
`/info` (unauthenticated), then POST the interactive initiation for the
mode-selected endpoint with the bearer token, including `amount` in the
body only when truthy. -/
def startHandler (authHeader : Option String) (req : StartReq)
    (env : Env) : StartResult × List RemoteCall :=
  match verifyToken authHeader with
  | none => (.authError, [])
  | some jwtToken =>
    if !(truthy req.mode && truthy req.assetCode && truthy req.account) then
      (.missingFields, [])
    else
      let mode := req.mode.getD ""
      let assetCode := req.assetCode.getD ""
      let account := req.account.getD ""
      match env.toml with
      | .ok doc =>
        match doc.transferServer with
        | none => (.tomlKeyMissing, [.fetchToml])
        | some ts =>
          match env.info ts with
          | .ok _ =>
            let endpoint := if mode == "deposit" then "/transactions/deposit/interactive"
                            else "/transactions/withdraw/interactive"
            let url := ts ++ endpoint
            let params : InteractiveBody :=
              { asset_code := assetCode, account := account,
                amount := if truthy req.amount then req.amount else none }
            let calls := [RemoteCall.fetchToml, RemoteCall.getInfo ts,
                          RemoteCall.postInteractive url params jwtToken]
            match env.interactive url params jwtToken with
            | .ok d => (.success d.id d.url d.ty, calls)
            | out => (.failure out.details, calls)
          | out => (.failure out.details, [.fetchToml, .getInfo ts])
      | out => (.failure out.details, [.fetchToml])

/-- `POST /api/sep24/transaction` (part_001 lines 275–328), with the
`verifyToken` middleware applied first: validate `id`, fetch the TOML,
extract `TRANSFER_SERVER_SEP0024`, GET `/transaction?id=...` with the
bearer token and relay the transaction record. -/
def txHandler (authHeader : Option String) (idField : Option String)
    (env : Env) : TxStatusResult × List RemoteCall :=
  match verifyToken authHeader with
  | none => (.authError, [])
  | some jwtToken =>
    if !(truthy idField) then (.missingId, [])
    else
      let id := idField.getD ""
      match env.toml with
      | .ok doc =>
        match doc.transferServer with
        | none => (.tomlKeyMissing, [.fetchToml])
        | some ts =>
          let calls := [RemoteCall.fetchToml, RemoteCall.getTransaction ts id jwtToken]
          match env.txStatus ts id jwtToken with
          | .ok t => (.success t, calls)
          | out => (.failure out.details, calls)
      | out => (.failure out.details, [.fetchToml])

/-! ## The frontend polling transition (src/frontend/src/App.jsx) -/

/-- The slice of React state `checkTransactionStatus` touches:
`sep24Step` (2 = awaiting interaction, 3 = monitoring/polling,
4 = complete/terminal), `transactionStatus`, `sep24Error`. -/
structure Sep24State where
  step : Nat
  transactionStatus : Option TxRecord
  errorMsg : String
deriving DecidableEq, Repr

/-- `checkTransactionStatus` (App.jsx lines 179–213): clear the error, and
on a successful fetch store the record and set `sep24Step` to 4 when
`data.status === 'completed'`, otherwise to 3; on a thrown error record the
message and leave the step unchanged. -/
def checkTransactionStatus (st : Sep24State) (resp : Except String TxRecord) :
    Sep24State :=
  match resp with
  | .ok data =>
    { st with errorMsg := ""
              transactionStatus := some data
              step := if data.status == "completed" then 4 else 3 }
  | .error e => { st with errorMsg := e }

/-! ## Trace projections -/

/-- Is this outbound call a challenge-submission POST to the auth endpoint? -/
def isSubmissionCall : RemoteCall → Bool
  | .postSubmit _ _ => true
  | _ => false

/-- Number of challenge-submission POSTs in a trace. -/
def countSubmissions (calls : List RemoteCall) : Nat :=
  (calls.filter isSubmissionCall).length

/-- The envelopes POSTed to the auth endpoint, in order. -/
def postedXdrs (calls : List RemoteCall) : List Xdr :=
  calls.filterMap fun c => match c with
    | .postSubmit _ x => some x
    | _ => none

/-- The JSON bodies POSTed to an interactive initiation endpoint, in order. -/
def postedInteractiveBodies (calls : List RemoteCall) : List InteractiveBody :=
  calls.filterMap fun c => match c with
    | .postInteractive _ b _ => some b
    | _ => none

/-- The interactive-endpoint URLs POSTed to, in order. -/
def postedInteractiveUrls (calls : List RemoteCall) : List String :=
  calls.filterMap fun c => match c with
    | .postInteractive u _ _ => some u
    | _ => none

/-- Is this outbound call addressed to the transfer server? -/
def isTransferServerCall : RemoteCall → Bool
  | .getInfo _ => true
  | .postInteractive _ _ _ => true
  | .getTransaction _ _ _ => true
  | _ => false

/-- The bearer token an outbound call carries, when it is authenticated. -/
def bearerOf : RemoteCall → Option String
  | .postInteractive _ _ b => some b
  | .getTransaction _ _ b => some b
  | _ => none

/-- Network passphrase recorded in the last signature of a posted envelope,
when the trace contains exactly one well-formed submission. -/
def lastSigNetwork : List Xdr → Option String
  | [Xdr.wellFormed e] => (e.signatures.getLast?).map fun s => s.network
  | _ => none

/-- How many of the envelope's signatures were produced by `signer`. -/
def sigCountBy (e : Envelope) (signer : String) : Nat :=
  (e.signatures.filter fun s => s.signer == signer).length

/-- Modelled from the spec: a Challenge is expired once `now` is past the
`not-after` bound of its validity window (§3 data model; the source has no
corresponding check, which is what claim C1 is about). -/
def isExpired (e : Envelope) (now : Nat) : Bool :=
  match e.timeBounds with
  | some tb => decide (tb.2 < now)
  | none => false

/-! ## Concrete fixtures for witnesses and counterexamples -/

/-- A directory document advertising both endpoints. -/
def goodToml : TomlDoc :=
  { webAuthEndpoint := some "https://anchor.example/auth"
    transferServer := some "https://anchor.example/sep24" }

/-- A cooperating remote world: every call succeeds. -/
def goodEnv : Env :=
  { toml := .ok goodToml
    challenge := fun _ _ _ => .ok { transaction := "TXB64", network_passphrase := TESTNET_PASSPHRASE }
    submit := fun _ _ => .ok (some "jwt-token")
    info := fun _ => .ok ()
    interactive := fun _ _ _ => .ok { id := "tx1", url := "https://anchor.example/interactive", ty := "interactive_customer_info_needed" }
    txStatus := fun _ id _ => .ok { id := id, status := "incomplete", message := none } }

/-- A subject-signed challenge envelope whose validity window closed at
ledger time 100. -/
def expiredEnvelope : Envelope :=
  { sourceAccount := "GSUBJECT"
    timeBounds := some (0, 100)
    signatures := [⟨"GANCHOR", TESTNET_PASSPHRASE⟩, ⟨"GSUBJECT", TESTNET_PASSPHRASE⟩] }

/-- A subject-signed challenge envelope with an open validity window. -/
def plainEnvelope : Envelope :=
  { sourceAccount := "GSUBJECT"
    timeBounds := some (0, 2000000000)
    signatures := [⟨"GANCHOR", TESTNET_PASSPHRASE⟩, ⟨"GSUBJECT", TESTNET_PASSPHRASE⟩] }

/-- The origin server's configured secret seed. -/
def originSecret : String := "SORIGINSEED"

/-- An envelope that already bears an Origin signature made with the
configured key, and no Subject signature. -/
def originSignedEnvelope : Envelope :=
  { sourceAccount := "GSUBJECT"
    timeBounds := some (0, 2000000000)
    signatures := [⟨"GANCHOR", TESTNET_PASSPHRASE⟩, ⟨pubOf originSecret, TESTNET_PASSPHRASE⟩] }

/-- A well-formed submit request around `plainEnvelope`. -/
def okSubmitReq : SubmitReq :=
  { signedTransaction := some (.wellFormed plainEnvelope)
    networkPassphrase := some TESTNET_PASSPHRASE }

/-- A well-formed deposit-initiation request. -/
def okStartReq : StartReq :=
  { mode := some "deposit", assetCode := some "USDC"
    amount := some "100", account := some "GSUBJECT" }

/-! ## Helper lemmas -/

/-- The catch-block details of a rejection with a truthy (non-empty)
payload is the payload itself. -/
theorem details_rejected_truthy {α : Type} (p m : String) (hp : p ≠ "") :
    (HttpOutcome.rejected p m : HttpOutcome α).details = p := by
  simp [HttpOutcome.details, hp]

/-! ## Claims -/

/-- C1: the spec requires a co-sign/submit request whose envelope's
`not-after` is in the past to fail locally with `ChallengeExpired` and
produce zero submission calls.  The code has no time-bounds check at all:
for any `now` past the envelope's `not-after`, the handler still
origin-signs the expired envelope, performs exactly one submission POST,
and reports success — demonstrating the code bug. -/
theorem submit_has_no_expiry_check (now : Nat) (h : 100 < now) :
    isExpired expiredEnvelope now = true ∧
    countSubmissions (submitHandler (some originSecret)
      { signedTransaction := some (.wellFormed expiredEnvelope)
        networkPassphrase := some TESTNET_PASSPHRASE } goodEnv).2 = 1 ∧
    (submitHandler (some originSecret)
      { signedTransaction := some (.wellFormed expiredEnvelope)
        networkPassphrase := some TESTNET_PASSPHRASE } goodEnv).1
      = .success (some "jwt-token") := by
  refine ⟨?_, by decide, by decide⟩
  simpa [isExpired, expiredEnvelope] using h

/-- Witness for `submit_has_no_expiry_check` at `now = 200`. -/
theorem submit_has_no_expiry_check_witness :
    isExpired expiredEnvelope 200 = true ∧
    countSubmissions (submitHandler (some originSecret)
      { signedTransaction := some (.wellFormed expiredEnvelope)
        networkPassphrase := some TESTNET_PASSPHRASE } goodEnv).2 = 1 ∧
    (submitHandler (some originSecret)
      { signedTransaction := some (.wellFormed expiredEnvelope)
        networkPassphrase := some TESTNET_PASSPHRASE } goodEnv).1
      = .success (some "jwt-token") :=
  submit_has_no_expiry_check 200 (by decide)

/-- C2 counterexample: a poll returning status `"error"` leaves the session
at step 3 (Polling), not step 4 (Terminal), refuting "Terminal iff status
is completed or error". -/
theorem pollStatus_error_status_stays_polling :
    (checkTransactionStatus ⟨2, none, ""⟩
      (.ok { id := "tx1", status := "error", message := none })).step = 3 ∧
    (3 : Nat) ≠ 4 := by decide

/-- C2 (amended): a successful poll moves the session to the Terminal step
(4) exactly when the returned status is the string `completed`; every other
status string — including `error` — puts it at the Polling step (3). -/
theorem pollStatus_terminal_iff_completed (st : Sep24State) (r : TxRecord) :
    ((checkTransactionStatus st (.ok r)).step = 4 ↔ r.status = "completed") ∧
    ((checkTransactionStatus st (.ok r)).step = 3 ↔ r.status ≠ "completed") := by
  by_cases h : r.status = "completed" <;> simp [checkTransactionStatus, h]

/-- C3: the spec requires `coSign` to be a no-op or error on an envelope
already bearing an Origin signature for the configured key, and `submit` to
be called only with both a Subject and an Origin signature.  The handler
appends unconditionally: on an envelope already carrying the Origin's
signature (and carrying no Subject signature at all) it POSTs an envelope
with two Origin signatures for the same key — demonstrating the code
bug. -/
theorem coSign_appends_duplicate_origin_signature :
    postedXdrs (submitHandler (some originSecret)
      { signedTransaction := some (.wellFormed originSignedEnvelope)
        networkPassphrase := some TESTNET_PASSPHRASE } goodEnv).2
      = [Xdr.wellFormed (signEnvelope originSignedEnvelope TESTNET_PASSPHRASE originSecret)] ∧
    sigCountBy (signEnvelope originSignedEnvelope TESTNET_PASSPHRASE originSecret)
      (pubOf originSecret) = 2 ∧
    sigCountBy originSignedEnvelope "GSUBJECT" = 0 ∧
    countSubmissions (submitHandler (some originSecret)
      { signedTransaction := some (.wellFormed originSignedEnvelope)
        networkPassphrase := some TESTNET_PASSPHRASE } goodEnv).2 = 1 := by
  decide

/-- C4 counterexample: with the caller-supplied passphrase `"Test X"` the
envelope is parsed and signed under the canonical testnet passphrase, not
the supplied string: the network identifier is not threaded unchanged for
every possible passphrase value. -/
theorem network_not_threaded_verbatim :
    lastSigNetwork (postedXdrs (submitHandler (some originSecret)
      { signedTransaction := some (.wellFormed plainEnvelope)
        networkPassphrase := some "Test X" } goodEnv).2)
      = some TESTNET_PASSPHRASE ∧
    TESTNET_PASSPHRASE ≠ "Test X" := by decide

/-- C4 (amended): the supplied passphrase is first remapped — any value
containing `"Test"` becomes the canonical testnet passphrase, else any
value containing `"Public"` becomes the canonical public passphrase — and
only a passphrase containing neither substring is threaded unchanged
through decode, sign, and encode, the appended signature being bound to
exactly the supplied string. -/
theorem network_threaded_when_not_remapped (p : String) (e : Envelope)
    (h0 : p ≠ "") (hT : strIncludes p "Test" = false)
    (hP : strIncludes p "Public" = false) :
    postedXdrs (submitHandler (some originSecret)
      { signedTransaction := some (.wellFormed e)
        networkPassphrase := some p } goodEnv).2
      = [Xdr.wellFormed (signEnvelope e p originSecret)] ∧
    (signEnvelope e p originSecret).signatures.getLast?
      = some ⟨pubOf originSecret, p⟩ := by
  constructor
  · simp [submitHandler, xdrTruthy, truthy, determineNetwork, hT, hP, h0,
          goodEnv, goodToml, postedXdrs]
    rw [if_neg (by decide)]
    rfl
  · simp [signEnvelope]

/-- Witness for `network_threaded_when_not_remapped` at the passphrase
`"Zcustom net"` and `plainEnvelope`. -/
theorem network_threaded_when_not_remapped_witness :
    postedXdrs (submitHandler (some originSecret)
      { signedTransaction := some (.wellFormed plainEnvelope)
        networkPassphrase := some "Zcustom net" } goodEnv).2
      = [Xdr.wellFormed (signEnvelope plainEnvelope "Zcustom net" originSecret)] ∧
    (signEnvelope plainEnvelope "Zcustom net" originSecret).signatures.getLast?
      = some ⟨pubOf originSecret, "Zcustom net"⟩ :=
  network_threaded_when_not_remapped "Zcustom net" plainEnvelope
    (by decide) (by decide) (by decide)

/-- C5 counterexample: a Verifier rejection whose raw response payload is
the empty string is not relayed verbatim — the falsy payload is replaced by
the transport message (`error.response?.data || error.message`), so the raw
payload is not always carried. -/
theorem empty_rejection_payload_replaced :
    (submitHandler (some originSecret) okSubmitReq
      { goodEnv with submit := fun _ _ =>
          HttpOutcome.rejected "" "Request failed with status code 400" }).1
      = .failure "Request failed with status code 400" ∧
    ("Request failed with status code 400" : String) ≠ "" := by decide

/-- C5 (amended): whenever the Verifier rejects a call with a truthy
(non-empty) raw response payload, each of the four handlers — challenge
request, challenge submission, transfer initiation, status query — returns
the payload verbatim as the `details` of its failure result. -/
theorem rejection_payload_relayed_verbatim (p m : String) (hp : p ≠ "") :
    (submitHandler (some originSecret) okSubmitReq
      { goodEnv with submit := fun _ _ => HttpOutcome.rejected p m }).1 = .failure p ∧
    (getChallengeHandler "client.example" (some "GSUBJECT")
      { goodEnv with challenge := fun _ _ _ => HttpOutcome.rejected p m }).1 = .failure p ∧
    (startHandler (some "Bearer tok") okStartReq
      { goodEnv with interactive := fun _ _ _ => HttpOutcome.rejected p m }).1 = .failure p ∧
    (txHandler (some "Bearer tok") (some "tx1")
      { goodEnv with txStatus := fun _ _ _ => HttpOutcome.rejected p m }).1 = .failure p := by
  refine ⟨?_, ?_, ?_, ?_⟩
  · show SubmitResult.failure
      ((HttpOutcome.rejected p m : HttpOutcome (Option String)).details) = _
    rw [details_rejected_truthy p m hp]
  · show ChallengeResult.failure
      ((HttpOutcome.rejected p m : HttpOutcome ChallengeData).details) = _
    rw [details_rejected_truthy p m hp]
  · show StartResult.failure
      ((HttpOutcome.rejected p m : HttpOutcome InteractiveData).details) = _
    rw [details_rejected_truthy p m hp]
  · show TxStatusResult.failure
      ((HttpOutcome.rejected p m : HttpOutcome TxRecord).details) = _
    rw [details_rejected_truthy p m hp]

/-- Witness for `rejection_payload_relayed_verbatim` at a concrete
non-empty payload. -/
theorem rejection_payload_relayed_verbatim_witness :
    (submitHandler (some originSecret) okSubmitReq
      { goodEnv with submit := fun _ _ => HttpOutcome.rejected "invalid signatures" "msg" }).1
      = .failure "invalid signatures" ∧
    (getChallengeHandler "client.example" (some "GSUBJECT")
      { goodEnv with challenge := fun _ _ _ => HttpOutcome.rejected "invalid signatures" "msg" }).1
      = .failure "invalid signatures" ∧
    (startHandler (some "Bearer tok") okStartReq
      { goodEnv with interactive := fun _ _ _ => HttpOutcome.rejected "invalid signatures" "msg" }).1
      = .failure "invalid signatures" ∧
    (txHandler (some "Bearer tok") (some "tx1")
      { goodEnv with txStatus := fun _ _ _ => HttpOutcome.rejected "invalid signatures" "msg" }).1
      = .failure "invalid signatures" :=
  rejection_payload_relayed_verbatim "invalid signatures" "msg" (by decide)

/-- C6: a transfer-initiation request missing any of `mode`, `assetCode`,
`account` (once past the auth middleware) and a challenge request missing
`account` both fail immediately with the local missing-field error and an
empty call trace — no directory fetch and no Verifier call of any kind, for
every remote world. -/
theorem missing_fields_fail_before_any_call (env : Env) (cd tok : String)
    (auth : Option String) (req : StartReq) (acc : Option String)
    (hv : verifyToken auth = some tok)
    (hreq : (truthy req.mode && truthy req.assetCode && truthy req.account) = false)
    (hacc : truthy acc = false) :
    startHandler auth req env = (.missingFields, []) ∧
    getChallengeHandler cd acc env = (.missingAccount, []) := by
  constructor
  · simp [startHandler, hv, hreq]
  · simp [getChallengeHandler, hacc]

/-- Witness for `missing_fields_fail_before_any_call`: a deposit request
with no `mode` and a challenge request with no `account`. -/
theorem missing_fields_fail_before_any_call_witness :
    startHandler (some "Bearer tok")
      { mode := none, assetCode := some "USDC", amount := none, account := some "GSUBJECT" }
      goodEnv = (.missingFields, []) ∧
    getChallengeHandler "client.example" none goodEnv = (.missingAccount, []) :=
  missing_fields_fail_before_any_call goodEnv "client.example" "tok"
    (some "Bearer tok")
    { mode := none, assetCode := some "USDC", amount := none, account := some "GSUBJECT" }
    none (by decide) (by decide) (by decide)

/-- C7: when the directory document lacks the transfer-endpoint key,
`initiate` fails with the endpoint-not-advertised error after only the
directory fetch — its trace contains no call to the transfer server; and
the outcome of `initiate` never depends on the auth-endpoint key: two
directory documents differing only in `webAuthEndpoint` produce identical
results, so absence of the auth-endpoint key alone cannot make it fail. -/
theorem transfer_key_gates_transfer_calls (env : Env) (auth : Option String)
    (tok : String) (req : StartReq) (w w1 w2 : Option String) (ts : Option String)
    (hv : verifyToken auth = some tok)
    (hreq : (truthy req.mode && truthy req.assetCode && truthy req.account) = true)
    (htoml : env.toml = .ok { webAuthEndpoint := w, transferServer := none }) :
    startHandler auth req env = (.tomlKeyMissing, [.fetchToml]) ∧
    ((startHandler auth req env).2.all fun c => !(isTransferServerCall c)) = true ∧
    startHandler auth req { env with toml := .ok { webAuthEndpoint := w1, transferServer := ts } }
      = startHandler auth req { env with toml := .ok { webAuthEndpoint := w2, transferServer := ts } } := by
  have h1 : startHandler auth req env = (.tomlKeyMissing, [.fetchToml]) := by
    simp [startHandler, hv, hreq, htoml]
  refine ⟨h1, ?_, ?_⟩
  · rw [h1]; decide
  · cases ts <;> simp [startHandler, hv, hreq]

/-- Witness for `transfer_key_gates_transfer_calls`: a directory that
advertises only the auth endpoint. -/
theorem transfer_key_gates_transfer_calls_witness :
    startHandler (some "Bearer tok") okStartReq
      { goodEnv with toml := .ok { webAuthEndpoint := some "https://anchor.example/auth", transferServer := none } }
      = (.tomlKeyMissing, [.fetchToml]) ∧
    ((startHandler (some "Bearer tok") okStartReq
      { goodEnv with toml := .ok { webAuthEndpoint := some "https://anchor.example/auth", transferServer := none } }).2.all
        fun c => !(isTransferServerCall c)) = true ∧
    startHandler (some "Bearer tok") okStartReq
      { goodEnv with toml := .ok { webAuthEndpoint := none, transferServer := some "https://anchor.example/sep24" } }
      = startHandler (some "Bearer tok") okStartReq
          { goodEnv with toml := .ok { webAuthEndpoint := some "B", transferServer := some "https://anchor.example/sep24" } } :=
  transfer_key_gates_transfer_calls
    { goodEnv with toml := .ok { webAuthEndpoint := some "https://anchor.example/auth", transferServer := none } }
    (some "Bearer tok") "tok" okStartReq
    (some "https://anchor.example/auth") none (some "B")
    (some "https://anchor.example/sep24")
    (by decide) (by decide) rfl

/-- C8 counterexample: an `amount` that is present in the request body but
equal to the empty string is falsy, so the field is dropped from the
initiation body instead of being passed through — "present" is not the
condition the code tests. -/
theorem present_empty_amount_omitted :
    postedInteractiveBodies (startHandler (some "Bearer tok")
      { mode := some "deposit", assetCode := some "USDC"
        amount := some "", account := some "GSUBJECT" } goodEnv).2
      = [{ asset_code := "USDC", account := "GSUBJECT", amount := none }] ∧
    (some "" : Option String) ≠ none := by decide

/-- C8 (amended): the initiation body carries the `amount` field exactly
when the request's amount is truthy (present and non-empty), and then
carries it unmodified; a falsy amount (absent or the empty string) is
omitted from the body entirely. -/
theorem amount_included_iff_truthy (a : Option String) :
    (postedInteractiveBodies (startHandler (some "Bearer tok")
      { mode := some "deposit", assetCode := some "USDC"
        amount := a, account := some "GSUBJECT" } goodEnv).2).map
        (fun b => b.amount)
      = [if truthy a then a else none] := rfl

/-- C9: the initiation handler validates only that `mode` is truthy, never
its value: any mode other than the exact string `"deposit"` — here an
arbitrary non-empty string — is routed to the withdraw interactive
endpoint. -/
theorem nondeposit_mode_routed_to_withdraw (m : String)
    (h0 : m ≠ "") (hd : m ≠ "deposit") :
    (startHandler (some "Bearer tok")
      { mode := some m, assetCode := some "USDC"
        amount := none, account := some "GSUBJECT" } goodEnv).2
      = [RemoteCall.fetchToml, RemoteCall.getInfo "https://anchor.example/sep24",
         RemoteCall.postInteractive
           ("https://anchor.example/sep24" ++ "/transactions/withdraw/interactive")
           { asset_code := "USDC", account := "GSUBJECT", amount := none } "tok"] := by
  simp [startHandler, verifyToken, truthy, goodEnv, goodToml, h0, hd,
        strStartsWith, strDrop]

/-- Witness for `nondeposit_mode_routed_to_withdraw` at mode
`"banana"`. -/
theorem nondeposit_mode_routed_to_withdraw_witness :
    (startHandler (some "Bearer tok")
      { mode := some "banana", assetCode := some "USDC"
        amount := none, account := some "GSUBJECT" } goodEnv).2
      = [RemoteCall.fetchToml, RemoteCall.getInfo "https://anchor.example/sep24",
         RemoteCall.postInteractive
           ("https://anchor.example/sep24" ++ "/transactions/withdraw/interactive")
           { asset_code := "USDC", account := "GSUBJECT", amount := none } "tok"] :=
  nondeposit_mode_routed_to_withdraw "banana" (by decide) (by decide)

/-- C10: both authenticated transfer-session handlers reject with the
authorization error and an empty call trace whenever the middleware fails
(header absent or not starting with `"Bearer "`); any header starting with
`"Bearer "` has the remainder extracted without further validation; and
whenever the middleware yields a token, every authenticated outbound call
either handler makes carries exactly that token. -/
theorem auth_gate_and_bearer_forwarding (env : Env) (h : Option String)
    (req : StartReq) (idf : Option String) :
    (verifyToken h = none →
      startHandler h req env = (.authError, []) ∧ txHandler h idf env = (.authError, [])) ∧
    (∀ s : String, strStartsWith s "Bearer " = true →
      verifyToken (some s) = some (strDrop s 7)) ∧
    (∀ t : String, verifyToken h = some t →
      ((startHandler h req env).2.all fun c => (bearerOf c).getD t == t) = true ∧
      ((txHandler h idf env).2.all fun c => (bearerOf c).getD t == t) = true) := by
  refine ⟨?_, ?_, ?_⟩
  · intro hv
    constructor <;> simp [startHandler, txHandler, hv]
  · intro s hs
    simp [verifyToken, hs]
  · intro t hv
    constructor
    · simp only [startHandler, hv]
      repeat' split
      all_goals simp [bearerOf]
    · simp only [txHandler, hv]
      repeat' split
      all_goals simp [bearerOf]

/-- Witness for `auth_gate_and_bearer_forwarding`: a header without the
Bearer scheme is rejected before any call, and a well-formed one has its
token forwarded on every authenticated call of both handlers. -/
theorem auth_gate_and_bearer_forwarding_witness :
    startHandler (some "token-without-scheme") okStartReq goodEnv = (.authError, []) ∧
    ((startHandler (some "Bearer tok") okStartReq goodEnv).2.all
      fun c => (bearerOf c).getD "tok" == "tok") = true ∧
    ((txHandler (some "Bearer tok") (some "tx1") goodEnv).2.all
      fun c => (bearerOf c).getD "tok" == "tok") = true :=
  ⟨((auth_gate_and_bearer_forwarding goodEnv (some "token-without-scheme")
      okStartReq (some "tx1")).1 (by decide)).1,
   ((auth_gate_and_bearer_forwarding goodEnv (some "Bearer tok")
      okStartReq (some "tx1")).2.2 "tok" (by decide)).1,
   ((auth_gate_and_bearer_forwarding goodEnv (some "Bearer tok")
      okStartReq (some "tx1")).2.2 "tok" (by decide)).2⟩

end StellarAnchorDemo
